import Mathlib

/-!
Shallow embedding of the WhatsApp HTTP façade service (`src/app.ts`):
the connection-state tracker mutated by provider lifecycle events, the
`auth_failure` retry timer, the three HTTP route handlers, and the
startup configuration validation.
-/

namespace WhatsappService

/-- The four status labels of the `ConnectionStatus` interface in `src/app.ts`. -/
inductive Status where
  | connected
  | connecting
  | disconnected
  | error
  deriving DecidableEq, Repr

/-- The module-level `connectionStatus` record: `{ isConnected, status }`. -/
structure ConnectionStatus where
  isConnected : Bool
  status : Status
  deriving DecidableEq, Repr

/-- Initial value of `connectionStatus`: `{ isConnected: false, status: 'disconnected' }`. -/
def initialConnectionStatus : ConnectionStatus :=
  { isConnected := false, status := Status.disconnected }

/-- A pending `setTimeout` timer scheduled by the `auth_failure` handler. -/
structure PendingTimer where
  delayMs : Nat
  deriving DecidableEq, Repr

/-- The process state relevant to the tracker: the connection status plus the
multiset (as a list) of pending retry timers. -/
structure AppState where
  connectionStatus : ConnectionStatus
  timers : List PendingTimer
  deriving DecidableEq, Repr

/-- State at process start: `disconnected/false`, no timers pending. -/
def initialAppState : AppState :=
  { connectionStatus := initialConnectionStatus, timers := [] }

/-- The provider lifecycle events the code registers handlers for
(`auth_failure`, `ready`, `qr`, `pairing-code`, `error`, `close`). -/
inductive ProviderEvent where
  | authFailure
  | ready
  | qr
  | pairingCode
  | providerError
  | close
  deriving DecidableEq, Repr

/-- Delay of the retry timer scheduled by the `auth_failure` handler: 5000 ms. -/
def authFailureTimerDelayMs : Nat := 5000

/-- The effect of each registered lifecycle event handler on the state, as in
`adapterProvider.on(...)` in `src/app.ts`. The `auth_failure` handler sets
`error/false` and appends one new independent timer; the `pairing-code`
handler only logs the pairing code and leaves the state untouched. -/
def handleEvent : ProviderEvent → AppState → AppState
  | ProviderEvent.authFailure, s =>
      { connectionStatus := { isConnected := false, status := Status.error },
        timers := s.timers ++ [{ delayMs := authFailureTimerDelayMs }] }
  | ProviderEvent.ready, s =>
      { s with connectionStatus := { isConnected := true, status := Status.connected } }
  | ProviderEvent.qr, s =>
      { s with connectionStatus := { isConnected := false, status := Status.connecting } }
  | ProviderEvent.pairingCode, s => s
  | ProviderEvent.providerError, s =>
      { s with connectionStatus := { isConnected := false, status := Status.error } }
  | ProviderEvent.close, s =>
      { s with connectionStatus := { isConnected := false, status := Status.disconnected } }

/-- Firing the `i`-th pending `auth_failure` retry timer: its callback sets
`connecting/false`, and the fired timer is removed from the pending list. -/
def fireAuthRetryTimer (s : AppState) (i : Nat) : AppState :=
  { connectionStatus := { isConnected := false, status := Status.connecting },
    timers := s.timers.eraseIdx i }

/-- JavaScript truthiness of a possibly-absent string field:
`undefined` and the empty string are falsy, all other strings truthy. -/
def truthy : Option String → Bool
  | none => false
  | some s => !s.isEmpty

/-- An incoming HTTP request, opaque to the handlers that ignore it. -/
structure HttpRequest where
  url : String
  headerList : List (String × String)
  deriving DecidableEq, Repr

/-- The parsed body of a `POST /send-message` request: each field may be absent. -/
structure SendMessageBody where
  number : Option String
  message : Option String
  deriving DecidableEq, Repr

/-- The JSON response written by the `/send-message` handler, one record
covering the shapes of the 400, 200 and 500 bodies. -/
structure SendMessageResponse where
  statusCode : Nat
  error : Option String
  errorStatus : Option String
  success : Bool
  message : Option String
  toNumber : Option String
  details : Option String
  deriving DecidableEq, Repr

/-- Everything the `/send-message` handler does: the response it writes, the
`bot.sendMessage(number, message, {})` call it makes (if any) with its
arguments, and the value of `connectionStatus` when the handler returns. -/
structure SendMessageOutcome where
  response : SendMessageResponse
  sendCall : Option (String × String)
  newStatus : ConnectionStatus
  deriving DecidableEq, Repr

/-- The 400 error text for a body missing `number` or `message`. -/
def missingFieldsError : String := "Faltan campos: number y message son requeridos"

/-- The 400 error text for a send attempt while not connected. -/
def notConnectedError : String := "WhatsApp no está conectado"

/-- The 200 success message of `/send-message`. -/
def sendSuccessMessage : String := "✅ Mensaje enviado correctamente"

/-- The 500 error text when `bot.sendMessage` throws. -/
def sendFailureError : String := "Error al enviar mensaje"

/-- The `POST /send-message` handler from `src/app.ts`. It destructures
`{ number, message }` from the body, rejects with 400 when either is falsy,
then rejects with 400/`not_connected` when `connectionStatus.isConnected` is
false, and otherwise awaits `bot.sendMessage`; `sendResult` stands for
whether that awaited call resolves or throws (the `catch` produces the 500). -/
def sendMessageHandler (body : SendMessageBody) (st : ConnectionStatus)
    (sendResult : Except String Unit) : SendMessageOutcome :=
  if !truthy body.number || !truthy body.message then
    { response :=
        { statusCode := 400, error := some missingFieldsError, errorStatus := none,
          success := false, message := none, toNumber := none, details := none },
      sendCall := none, newStatus := st }
  else if !st.isConnected then
    { response :=
        { statusCode := 400, error := some notConnectedError, errorStatus := some "not_connected",
          success := false, message := none, toNumber := none, details := none },
      sendCall := none, newStatus := st }
  else
    let n := body.number.getD ""
    let m := body.message.getD ""
    match sendResult with
    | Except.ok _ =>
        { response :=
            { statusCode := 200, error := none, errorStatus := none, success := true,
              message := some sendSuccessMessage, toNumber := some n, details := none },
          sendCall := some (n, m), newStatus := st }
    | Except.error e =>
        { response :=
            { statusCode := 500, error := some sendFailureError, errorStatus := none,
              success := false, message := none, toNumber := none, details := some e },
          sendCall := some (n, m), newStatus := st }

/-- The JSON body written by the `GET /status` handler on its 200 path. -/
structure StatusResponse where
  statusCode : Nat
  isConnected : Bool
  status : Status
  message : String
  deriving DecidableEq, Repr

/-- Response of `/status` plus the value of `connectionStatus` afterwards. -/
structure StatusOutcome where
  response : StatusResponse
  newStatus : ConnectionStatus
  deriving DecidableEq, Repr

/-- The `message` field of `/status` when connected. -/
def connectedStatusMessage : String := "✅ WhatsApp conectado y listo para enviar mensajes"

/-- The `message` field of `/status` when not connected. -/
def notConnectedStatusMessage : String := "⏳ WhatsApp no conectado"

/-- The `GET /status` handler from `src/app.ts`: reads `connectionStatus`,
writes a 200 with its two fields and a message chosen by `isConnected`. The
request object is never consulted, and the handler performs no operation that
can throw, so the 500 `catch` branch is unreachable in the embedding. -/
def statusHandler (_req : HttpRequest) (st : ConnectionStatus) : StatusOutcome :=
  { response :=
      { statusCode := 200, isConnected := st.isConnected, status := st.status,
        message := if st.isConnected then connectedStatusMessage else notConnectedStatusMessage },
    newStatus := st }

/-- The static JSON body written by the `GET /` handler. -/
structure RootResponse where
  statusCode : Nat
  message : String
  version : String
  endpointSendMessage : String
  endpointStatus : String
  deriving DecidableEq, Repr

/-- Response of `GET /` plus the value of `connectionStatus` afterwards. -/
structure RootOutcome where
  response : RootResponse
  newStatus : ConnectionStatus
  deriving DecidableEq, Repr

/-- The `GET /` handler from `src/app.ts`: always a 200 with static content. -/
def rootHandler (_req : HttpRequest) (st : ConnectionStatus) : RootOutcome :=
  { response :=
      { statusCode := 200, message := "🟢 WhatsApp API activa", version := "1.0.0",
        endpointSendMessage := "POST /send-message", endpointStatus := "GET /status" },
    newStatus := st }

/-- `validateConfig` from `src/app.ts`: throws when `WHATSAPP_PHONE` is falsy
(absent from the environment, or set to the empty string). -/
def validateConfig (phone : Option String) : Except String Unit :=
  if !truthy phone then
    Except.error "WHATSAPP_PHONE_NUMBER environment variable is required"
  else
    Except.ok ()

/-- Observable outcome of the `main` startup sequence. -/
structure StartupResult where
  exitCode : Option Nat
  portBound : Bool
  loggedStartError : Bool
  deriving DecidableEq, Repr

/-- The control flow of `main`: `validateConfig()` runs first inside the
`try`; any thrown error reaches the `catch`, which logs it and calls
`process.exit(1)` before `httpServer(+PORT)` could ever run. `restOfInit`
stands for the provider/bot initialisation between validation and the
`httpServer` call, which may itself throw. -/
def startup (phone : Option String) (restOfInit : Except String Unit) : StartupResult :=
  match validateConfig phone with
  | Except.error _ => { exitCode := some 1, portBound := false, loggedStartError := true }
  | Except.ok _ =>
      match restOfInit with
      | Except.error _ => { exitCode := some 1, portBound := false, loggedStartError := true }
      | Except.ok _ => { exitCode := none, portBound := true, loggedStartError := false }

/-- States reachable from process start by any interleaving of lifecycle
events and timer firings. -/
inductive Reachable : AppState → Prop where
  | init : Reachable initialAppState
  | event (e : ProviderEvent) {s : AppState} : Reachable s → Reachable (handleEvent e s)
  | timer (i : Nat) {s : AppState} : Reachable s → Reachable (fireAuthRetryTimer s i)

/-- The consistency invariant between the two fields of `connectionStatus`. -/
def consistentStatus (c : ConnectionStatus) : Prop :=
  c.isConnected = true ↔ c.status = Status.connected

/-- A non-empty string has `isEmpty = false` (so it is JavaScript-truthy). -/
theorem isEmpty_eq_false_of_ne {s : String} (h : s ≠ "") : s.isEmpty = false := by
  cases he : s.isEmpty
  · rfl
  · exact absurd ((String.isEmpty_iff s).mp he) h

/-- The empty string has `isEmpty = true` (so it is JavaScript-falsy). -/
theorem isEmpty_empty : "".isEmpty = true := by decide

/-- C1: a `POST /send-message` request whose body lacks `number` or lacks
`message` gets a 400 with the missing-fields error message and never reaches
the send primitive; the statement quantifies over every connection status, so
the missing-fields error wins even when `isConnected` is false — the presence
check comes before the connection check. -/
theorem send_message_missing_fields_first
    (body : SendMessageBody) (st : ConnectionStatus) (sendResult : Except String Unit)
    (h : body.number = none ∨ body.message = none) :
    (sendMessageHandler body st sendResult).response.statusCode = 400 ∧
    (sendMessageHandler body st sendResult).response.error = some missingFieldsError ∧
    (sendMessageHandler body st sendResult).sendCall = none := by
  rcases h with h | h <;> simp [sendMessageHandler, truthy, h]

/-- Witness for C1: a body with no `number`, evaluated while disconnected,
still gets the missing-fields 400. -/
theorem send_message_missing_fields_first_witness :
    (sendMessageHandler { number := none, message := some "hola" }
        { isConnected := false, status := Status.disconnected }
        (Except.ok ())).response.statusCode = 400 ∧
    (sendMessageHandler { number := none, message := some "hola" }
        { isConnected := false, status := Status.disconnected }
        (Except.ok ())).response.error = some missingFieldsError ∧
    (sendMessageHandler { number := none, message := some "hola" }
        { isConnected := false, status := Status.disconnected }
        (Except.ok ())).sendCall = none :=
  send_message_missing_fields_first { number := none, message := some "hola" }
    { isConnected := false, status := Status.disconnected } (Except.ok ()) (Or.inl rfl)

/-- C2: with both fields present (and truthy), a request made while
`isConnected` is false gets a 400 whose body carries `status: "not_connected"`,
and the provider's send primitive is not invoked. -/
theorem send_message_not_connected_rejected
    (n m : String) (st : ConnectionStatus) (sendResult : Except String Unit)
    (hn : n ≠ "") (hm : m ≠ "") (hc : st.isConnected = false) :
    (sendMessageHandler { number := some n, message := some m } st
      sendResult).response.statusCode = 400 ∧
    (sendMessageHandler { number := some n, message := some m } st
      sendResult).response.errorStatus = some "not_connected" ∧
    (sendMessageHandler { number := some n, message := some m } st sendResult).sendCall = none := by
  simp [sendMessageHandler, truthy, isEmpty_eq_false_of_ne hn, isEmpty_eq_false_of_ne hm, hc]

/-- Witness for C2: a complete body sent while disconnected gets the
`not_connected` 400 and triggers no send call. -/
theorem send_message_not_connected_rejected_witness :
    (sendMessageHandler { number := some "593999999999", message := some "hola" }
        { isConnected := false, status := Status.disconnected }
        (Except.ok ())).response.statusCode = 400 ∧
    (sendMessageHandler { number := some "593999999999", message := some "hola" }
        { isConnected := false, status := Status.disconnected }
        (Except.ok ())).response.errorStatus = some "not_connected" ∧
    (sendMessageHandler { number := some "593999999999", message := some "hola" }
        { isConnected := false, status := Status.disconnected }
        (Except.ok ())).sendCall = none :=
  send_message_not_connected_rejected "593999999999" "hola"
    { isConnected := false, status := Status.disconnected } (Except.ok ())
    (by decide) (by decide) rfl

/-- C3 counterexample: handling a `pairing-code` event does NOT set
`connectionStatus` to `{ isConnected: false, status: 'connecting' }` — the
registered `pairing-code` handler only logs the code; from the initial
(`disconnected`) state the status stays `disconnected`. -/
theorem pairing_code_event_does_not_set_connecting :
    ¬ ((handleEvent ProviderEvent.pairingCode initialAppState).connectionStatus =
        { isConnected := false, status := Status.connecting }) := by
  decide

/-- C3 amended: `ready` sets connected/true, `qr` sets connecting/false,
`error` sets error/false, `close` sets disconnected/false, and `pairing-code`
leaves `connectionStatus` unchanged. -/
theorem lifecycle_event_transitions (s : AppState) :
    (handleEvent ProviderEvent.ready s).connectionStatus =
      { isConnected := true, status := Status.connected } ∧
    (handleEvent ProviderEvent.qr s).connectionStatus =
      { isConnected := false, status := Status.connecting } ∧
    (handleEvent ProviderEvent.pairingCode s).connectionStatus = s.connectionStatus ∧
    (handleEvent ProviderEvent.providerError s).connectionStatus =
      { isConnected := false, status := Status.error } ∧
    (handleEvent ProviderEvent.close s).connectionStatus =
      { isConnected := false, status := Status.disconnected } :=
  ⟨rfl, rfl, rfl, rfl, rfl⟩

/-- C4: from any state, after a `ready` event `GET /status` answers 200 with
`isConnected: true` / `connected` (and the connected message); after a
subsequent `close` event it answers `isConnected: false` / `disconnected`. -/
theorem status_after_ready_then_close (req : HttpRequest) (s : AppState) :
    (statusHandler req (handleEvent ProviderEvent.ready s).connectionStatus).response =
      { statusCode := 200, isConnected := true, status := Status.connected,
        message := connectedStatusMessage } ∧
    (statusHandler req
        (handleEvent ProviderEvent.close
          (handleEvent ProviderEvent.ready s)).connectionStatus).response =
      { statusCode := 200, isConnected := false, status := Status.disconnected,
        message := notConnectedStatusMessage } := by
  simp [statusHandler, handleEvent]

/-- C5: the `auth_failure` handler immediately sets error/false and appends
one new 5000 ms retry timer to the pending list, leaving every previously
scheduled timer in place (no cancellation, no deduplication), and each timer's
callback, when it fires, sets connecting/false. -/
theorem auth_failure_schedules_retry_timer (s : AppState) :
    (handleEvent ProviderEvent.authFailure s).connectionStatus =
      { isConnected := false, status := Status.error } ∧
    (handleEvent ProviderEvent.authFailure s).timers =
      s.timers ++ [{ delayMs := authFailureTimerDelayMs }] ∧
    authFailureTimerDelayMs = 5000 ∧
    (∀ t : AppState, ∀ i : Nat,
      (fireAuthRetryTimer t i).connectionStatus =
        { isConnected := false, status := Status.connecting }) :=
  ⟨rfl, rfl, rfl, fun _ _ => rfl⟩

/-- C6: when `WHATSAPP_PHONE_NUMBER` is absent, startup logs the error and
exits with code 1 without ever binding the HTTP port, whatever the rest of
the initialisation would have done — validation runs first. -/
theorem missing_phone_exits_before_binding (restOfInit : Except String Unit) :
    startup none restOfInit =
      { exitCode := some 1, portBound := false, loggedStartError := true } := rfl

/-- C7: in every reachable state, `isConnected` is true exactly when `status`
is `connected`; the invariant holds initially and is preserved by every event
handler and by every timer callback. -/
theorem reachable_status_consistent (s : AppState) (h : Reachable s) :
    consistentStatus s.connectionStatus := by
  induction h with
  | init => simp [initialAppState, initialConnectionStatus, consistentStatus]
  | event e _ ih => cases e <;> simp_all [handleEvent, consistentStatus]
  | timer i _ ih => simp [fireAuthRetryTimer, consistentStatus]

/-- Witness for C7: the invariant at the state reached by handling `ready`
from the initial state. -/
theorem reachable_status_consistent_witness :
    consistentStatus (handleEvent ProviderEvent.ready initialAppState).connectionStatus :=
  reachable_status_consistent (handleEvent ProviderEvent.ready initialAppState)
    (Reachable.event ProviderEvent.ready Reachable.init)

/-- C8: no HTTP handler modifies `connectionStatus` in any branch — the state
after `/send-message` (all four branches: 400 missing fields, 400 not
connected, 200, 500), `/status` and `/` equals the state before. -/
theorem http_handlers_preserve_connection_status
    (body : SendMessageBody) (st : ConnectionStatus) (sendResult : Except String Unit)
    (req : HttpRequest) :
    (sendMessageHandler body st sendResult).newStatus = st ∧
    (statusHandler req st).newStatus = st ∧
    (rootHandler req st).newStatus = st := by
  refine ⟨?_, rfl, rfl⟩
  unfold sendMessageHandler
  split
  · rfl
  · split
    · rfl
    · cases sendResult <;> rfl

/-- C9: a `number` or `message` field that is present but equal to the empty
string is falsy, so the request is rejected with the missing-fields 400 and
the send primitive is never invoked. -/
theorem empty_string_field_rejected
    (body : SendMessageBody) (st : ConnectionStatus) (sendResult : Except String Unit)
    (h : body.number = some "" ∨ body.message = some "") :
    (sendMessageHandler body st sendResult).response.statusCode = 400 ∧
    (sendMessageHandler body st sendResult).response.error = some missingFieldsError ∧
    (sendMessageHandler body st sendResult).sendCall = none := by
  rcases h with h | h <;> simp [sendMessageHandler, truthy, h, isEmpty_empty]

/-- Witness for C9: an empty `number`, even while connected, yields the
missing-fields 400 and no send call. -/
theorem empty_string_field_rejected_witness :
    (sendMessageHandler { number := some "", message := some "hola" }
        { isConnected := true, status := Status.connected }
        (Except.ok ())).response.statusCode = 400 ∧
    (sendMessageHandler { number := some "", message := some "hola" }
        { isConnected := true, status := Status.connected }
        (Except.ok ())).response.error = some missingFieldsError ∧
    (sendMessageHandler { number := some "", message := some "hola" }
        { isConnected := true, status := Status.connected }
        (Except.ok ())).sendCall = none :=
  empty_string_field_rejected { number := some "", message := some "hola" }
    { isConnected := true, status := Status.connected } (Except.ok ()) (Or.inl rfl)

/-- C10: the `GET /status` 200 response depends only on `connectionStatus` —
two requests under the same status get identical responses — its status code
is 200, its `message` equals the connected-and-ready text exactly when
`isConnected` is true, and equals the not-connected text exactly when
`isConnected` is false. -/
theorem status_response_deterministic (r₁ r₂ : HttpRequest) (st : ConnectionStatus) :
    statusHandler r₁ st = statusHandler r₂ st ∧
    (statusHandler r₁ st).response.statusCode = 200 ∧
    ((statusHandler r₁ st).response.message = connectedStatusMessage ↔ st.isConnected = true) ∧
    ((statusHandler r₁ st).response.message = notConnectedStatusMessage ↔
      st.isConnected = false) := by
  refine ⟨rfl, rfl, ?_, ?_⟩ <;>
    cases hc : st.isConnected <;>
      simp [statusHandler, hc, connectedStatusMessage, notConnectedStatusMessage]

end WhatsappService
